import Mathlib

/-!
Verification of the invoice total calculator and its persistence hooks in
the `invoicegen` repository.

Numeric model: JavaScript numbers are embedded as exact rationals (`ℚ`).
The arithmetic in the source (`quantity * unitPrice` sums, percentage tax)
is plain `+`, `*`, `/` on numbers with no internal rounding, which the
rational embedding reproduces exactly.

The embedded operations follow:
  * `src/lib/db/models/Invoice.ts` (Sequelize model, `beforeCreate` /
    `beforeUpdate` hooks) — identical hooks exist in
    `src/server/src/models/Invoice.js`;
  * `src/pages/api/invoices/index.ts` (`createInvoice` handler);
  * `src/pages/api/invoices/[id].ts` (`getInvoice`, `updateInvoice`,
    `deleteInvoice` handlers).
-/

namespace InvoiceGen

/-- One invoice line item, per the `InvoiceItem` interface in
`src/lib/db/models/Invoice.ts` (the optional `id` is dropped;
it never enters the arithmetic). -/
structure LineItem where
  description : String
  quantity : ℚ
  unitPrice : ℚ
deriving DecidableEq, Repr

/-- The subtotal reduction from the hooks:
`invoice.items.reduce((sum, item) => sum + (item.quantity * item.unitPrice), 0)`. -/
def subtotalOf (items : List LineItem) : ℚ :=
  items.foldl (fun sum item => sum + item.quantity * item.unitPrice) 0

/-- Result of the total computation: the derived `subtotal`/`total` pair. -/
structure Totals where
  subtotal : ℚ
  total : ℚ
deriving DecidableEq, Repr

/-- The spec's `computeTotals(items, taxRate)`: the arithmetic of the
`beforeCreate` hook in `src/lib/db/models/Invoice.ts`, packaged as the pure
function the spec describes.  `taxAmount = subtotal * (taxRate / 100)`;
`total = subtotal + taxAmount`. -/
def computeTotals (items : List LineItem) (taxRate : ℚ) : Totals :=
  let subtotal := subtotalOf items
  let taxAmount := subtotal * (taxRate / 100)
  { subtotal := subtotal, total := subtotal + taxAmount }

/-- A JavaScript request-body value, restricted to the shapes the invoice
endpoints inspect: the handlers only test truthiness, `Array.isArray`, and
`.length`, and arrays of line-item records are the only arrays that occur. -/
inductive JsVal where
  | undef : JsVal
  | null : JsVal
  | jsBool : Bool → JsVal
  | jsNum : ℚ → JsVal
  | jsStr : String → JsVal
  | itemArray : List LineItem → JsVal
  | jsObj : JsVal
deriving DecidableEq, Repr

/-- JavaScript truthiness for the embedded values (`!x` in the handlers is
the negation of this; `NaN` is not modelled, no claim exercises it). -/
def truthy : JsVal → Bool
  | .undef => false
  | .null => false
  | .jsBool b => b
  | .jsNum q => q != 0
  | .jsStr s => s != ""
  | .itemArray _ => true
  | .jsObj => true

/-- `Array.isArray(v)` for the embedded values. -/
def isArray : JsVal → Bool
  | .itemArray _ => true
  | _ => false

/-- `.length` of an embedded array (only consulted after `isArray`). -/
def arrayLength : JsVal → Nat
  | .itemArray xs => xs.length
  | _ => 0

/-- The item list stored into the JSONB `items` column (only consulted
after validation has established `isArray`). -/
def asItems : JsVal → List LineItem
  | .itemArray xs => xs
  | _ => []

end InvoiceGen

namespace InvoiceGen.Model

open InvoiceGen

/-- A persisted `Invoice` row, per the Sequelize model in
`src/lib/db/models/Invoice.ts`.  Cosmetic JSON/string columns are kept as
raw `JsVal`s; the numeric columns (`taxRate`, `subtotal`, `total`) are
rationals.  Timestamps are omitted (no claim mentions them). -/
structure Invoice where
  id : String
  invoiceNumber : JsVal
  invoiceDate : JsVal
  dueDate : JsVal
  logoUrl : JsVal
  sender : JsVal
  recipient : JsVal
  items : List LineItem
  currency : JsVal
  taxRate : ℚ
  subtotal : ℚ
  total : ℚ
  UserId : String
deriving DecidableEq, Repr

/-- The `beforeCreate` hook of `src/lib/db/models/Invoice.ts`: recompute
`subtotal` and `total` from `items` and `taxRate`, overwriting whatever the
instance currently holds. -/
def beforeCreate (invoice : Invoice) : Invoice :=
  let subtotal := subtotalOf invoice.items
  let taxAmount := subtotal * (invoice.taxRate / 100)
  { invoice with subtotal := subtotal, total := subtotal + taxAmount }

/-- Creation attributes (`InvoiceCreationAttributes`): `subtotal` and
`total` are optional — a caller may supply its own values, which default to
the column default `0` when absent. -/
structure CreateAttrs where
  invoiceNumber : JsVal
  invoiceDate : JsVal
  dueDate : JsVal
  logoUrl : JsVal
  sender : JsVal
  recipient : JsVal
  items : List LineItem
  currency : JsVal
  taxRate : ℚ
  subtotal : Option ℚ
  total : Option ℚ
  UserId : String
deriving DecidableEq, Repr

/-- The instance `Invoice.create` builds before any hook runs: attribute
values, with the column defaults for absent `subtotal`/`total` and a fresh
generated `id`. -/
def buildInvoice (newId : String) (a : CreateAttrs) : Invoice :=
  { id := newId
    invoiceNumber := a.invoiceNumber
    invoiceDate := a.invoiceDate
    dueDate := a.dueDate
    logoUrl := a.logoUrl
    sender := a.sender
    recipient := a.recipient
    items := a.items
    currency := a.currency
    taxRate := a.taxRate
    subtotal := a.subtotal.getD 0
    total := a.total.getD 0
    UserId := a.UserId }

/-- `Invoice.create(attrs)`: build the instance, run `beforeCreate`,
persist the result. -/
def createInvoice (newId : String) (a : CreateAttrs) : Invoice :=
  beforeCreate (buildInvoice newId a)

/-- A change set for `invoice.update(values)`: `none` means the field is
absent from the values object. -/
structure UpdateAttrs where
  invoiceNumber : Option JsVal
  invoiceDate : Option JsVal
  dueDate : Option JsVal
  logoUrl : Option JsVal
  sender : Option JsVal
  recipient : Option JsVal
  items : Option (List LineItem)
  currency : Option JsVal
  taxRate : Option ℚ
  subtotal : Option ℚ
  total : Option ℚ
deriving DecidableEq, Repr

/-- Sequelize's `invoice.changed('items')` after `update(values)` set the
values: a JSONB (non-primitive) value is always marked changed when it is
assigned, so this is simply presence of `items` in the change set. -/
def itemsChanged (u : UpdateAttrs) : Bool :=
  u.items.isSome

/-- Sequelize's `invoice.changed('taxRate')`: `taxRate` is a FLOAT
(primitive) column, marked changed exactly when it is assigned a value
different from the stored one. -/
def taxRateChanged (old : Invoice) (u : UpdateAttrs) : Bool :=
  match u.taxRate with
  | some t => t != old.taxRate
  | none => false

/-- Assignment of the supplied values onto the instance, before hooks. -/
def setAttrs (inv : Invoice) (u : UpdateAttrs) : Invoice :=
  { inv with
    invoiceNumber := u.invoiceNumber.getD inv.invoiceNumber
    invoiceDate := u.invoiceDate.getD inv.invoiceDate
    dueDate := u.dueDate.getD inv.dueDate
    logoUrl := u.logoUrl.getD inv.logoUrl
    sender := u.sender.getD inv.sender
    recipient := u.recipient.getD inv.recipient
    items := u.items.getD inv.items
    currency := u.currency.getD inv.currency
    taxRate := u.taxRate.getD inv.taxRate
    subtotal := u.subtotal.getD inv.subtotal
    total := u.total.getD inv.total }

/-- The `beforeUpdate` hook of `src/lib/db/models/Invoice.ts`: recalculate
only `if (invoice.changed('items') || invoice.changed('taxRate'))`. -/
def beforeUpdate (changedItems changedTaxRate : Bool) (invoice : Invoice) : Invoice :=
  if changedItems || changedTaxRate then
    let subtotal := subtotalOf invoice.items
    let taxAmount := subtotal * (invoice.taxRate / 100)
    { invoice with subtotal := subtotal, total := subtotal + taxAmount }
  else invoice

/-- `invoice.update(values)`: set the supplied values, run `beforeUpdate`
with the resulting changed flags, persist the result. -/
def updateInvoice (inv : Invoice) (u : UpdateAttrs) : Invoice :=
  beforeUpdate (itemsChanged u) (taxRateChanged inv u) (setAttrs inv u)

/-- The spec's stored-totals invariant:
`subtotal = Σ (item.quantity * item.unitPrice)` and
`total = subtotal + subtotal * (taxRate / 100)`. -/
def totalsInvariant (inv : Invoice) : Prop :=
  inv.subtotal = (inv.items.map (fun item => item.quantity * item.unitPrice)).sum ∧
  inv.total = inv.subtotal + inv.subtotal * (inv.taxRate / 100)

instance (inv : Invoice) : Decidable (totalsInvariant inv) := by
  unfold totalsInvariant; infer_instance

end InvoiceGen.Model

namespace InvoiceGen.Api

open InvoiceGen

/-- The observable part of an HTTP response: status code, `success` flag,
`message` field. -/
structure ApiResponse where
  status : Nat
  success : Bool
  message : Option String
deriving DecidableEq, Repr

/-- `res.status(400).json({success: false, message: 'Missing required fields'})`. -/
def badRequestResponse : ApiResponse :=
  { status := 400, success := false, message := some "Missing required fields" }

/-- `res.status(404).json({success: false, message: 'Invoice not found'})`. -/
def notFoundResponse : ApiResponse :=
  { status := 404, success := false, message := some "Invoice not found" }

/-- The body fields the invoice handlers destructure from `req.body`
(`JsVal.undef` embeds an absent field). -/
structure RequestBody where
  invoiceNumber : JsVal
  invoiceDate : JsVal
  dueDate : JsVal
  logoUrl : JsVal
  sender : JsVal
  recipient : JsVal
  items : JsVal
  currency : JsVal
  taxRate : JsVal
deriving DecidableEq, Repr

/-- The shared validation of `createInvoice` and `updateInvoice`:
`!invoiceDate || !sender || !recipient || !items || !Array.isArray(items) || items.length === 0`. -/
def missingRequiredFields (b : RequestBody) : Bool :=
  !truthy b.invoiceDate || !truthy b.sender || !truthy b.recipient ||
    !truthy b.items || !isArray b.items || arrayLength b.items == 0

/-- `taxRate || 0` in `createInvoice`: a falsy or absent value becomes `0`;
a numeric body value passes through (for numbers `q || 0` is `q` except at
`q = 0`, where both sides are `0`). -/
def taxRateOrZero : JsVal → ℚ
  | .jsNum q => q
  | _ => 0

/-- `currency || 'USD'` in `createInvoice`. -/
def currencyOrUSD (v : JsVal) : JsVal :=
  if truthy v then v else .jsStr "USD"

/-- The `createInvoice` handler of `src/pages/api/invoices/index.ts`
(after authentication): validate, then `Invoice.create` with the body
fields and the authenticated user's id.  The generated UUID is passed in
as `newId`.  Returns the response and the created row, if any. -/
def createInvoice (body : RequestBody) (userId newId : String) :
    ApiResponse × Option Model.Invoice :=
  if missingRequiredFields body then
    (badRequestResponse, none)
  else
    let invoice := Model.createInvoice newId
      { invoiceNumber := body.invoiceNumber
        invoiceDate := body.invoiceDate
        dueDate := body.dueDate
        logoUrl := body.logoUrl
        sender := body.sender
        recipient := body.recipient
        items := asItems body.items
        currency := currencyOrUSD body.currency
        taxRate := taxRateOrZero body.taxRate
        subtotal := none
        total := none
        UserId := userId }
    ({ status := 201, success := true, message := some "Invoice created successfully" },
      some invoice)

/-- `Invoice.findOne({where: {id: invoiceId, UserId: userId}})` over the
invoice table. -/
def findOne (db : List Model.Invoice) (invoiceId userId : String) :
    Option Model.Invoice :=
  db.find? (fun inv => inv.id == invoiceId && inv.UserId == userId)

/-- The `getInvoice` handler of `src/pages/api/invoices/[id].ts` (after
authentication): 404 when the owned invoice is missing, otherwise return
it with the default success response. -/
def getInvoice (db : List Model.Invoice) (invoiceId userId : String) :
    ApiResponse × Option Model.Invoice :=
  match findOne db invoiceId userId with
  | none => (notFoundResponse, none)
  | some invoice =>
      ({ status := 200, success := true, message := some "Success" }, some invoice)

/-- Persisting `invoice.update(...)`: the row with the instance's primary
key is replaced. -/
def persist (db : List Model.Invoice) (inv : Model.Invoice) : List Model.Invoice :=
  db.map (fun row => if row.id == inv.id then inv else row)

/-- A present body value for the update's values object (`undefined`
fields are not part of the change set). -/
def optVal (v : JsVal) : Option JsVal :=
  if v == .undef then none else some v

/-- The `items` body value as an update value (validation has already
required a non-empty array on every path that reaches the update). -/
def optItems : JsVal → Option (List LineItem)
  | .itemArray xs => some xs
  | _ => none

/-- The `taxRate` body value as an update value (a FLOAT column only
receives numeric values; an absent or non-numeric one is not part of the
change set). -/
def optNum : JsVal → Option ℚ
  | .jsNum q => some q
  | _ => none

/-- The values object `updateInvoice` passes to `invoice.update`: the nine
destructured body fields — never `subtotal`/`total`, which the handler
does not forward. -/
def updateAttrsOfBody (b : RequestBody) : Model.UpdateAttrs :=
  { invoiceNumber := optVal b.invoiceNumber
    invoiceDate := optVal b.invoiceDate
    dueDate := optVal b.dueDate
    logoUrl := optVal b.logoUrl
    sender := optVal b.sender
    recipient := optVal b.recipient
    items := optItems b.items
    currency := optVal b.currency
    taxRate := optNum b.taxRate
    subtotal := none
    total := none }

/-- The `updateInvoice` handler of `src/pages/api/invoices/[id].ts` (after
authentication): find the owned invoice (404 when missing), validate the
body (400), then `invoice.update` with the destructured fields.  Returns
the response and the invoice table after the request. -/
def updateInvoice (db : List Model.Invoice) (invoiceId userId : String)
    (body : RequestBody) : ApiResponse × List Model.Invoice :=
  match findOne db invoiceId userId with
  | none => (notFoundResponse, db)
  | some invoice =>
      if missingRequiredFields body then
        (badRequestResponse, db)
      else
        let updated := Model.updateInvoice invoice (updateAttrsOfBody body)
        ({ status := 200, success := true, message := some "Invoice updated successfully" },
          persist db updated)

/-- The `deleteInvoice` handler of `src/pages/api/invoices/[id].ts` (after
authentication): find the owned invoice (404 when missing), then
`invoice.destroy()` removes the row with its primary key. -/
def deleteInvoice (db : List Model.Invoice) (invoiceId userId : String) :
    ApiResponse × List Model.Invoice :=
  match findOne db invoiceId userId with
  | none => (notFoundResponse, db)
  | some invoice =>
      ({ status := 200, success := true, message := some "Invoice deleted successfully" },
        db.filter (fun row => row.id != invoice.id))

/-- The request bodies claim C9 describes: `invoiceDate`, `sender` or
`recipient` missing, or `items` absent, not an array, or an empty array. -/
def claimInvalidBody (b : RequestBody) : Prop :=
  b.invoiceDate = JsVal.undef ∨ b.sender = JsVal.undef ∨ b.recipient = JsVal.undef ∨
    b.items = JsVal.undef ∨ isArray b.items = false ∨ b.items = JsVal.itemArray []

end InvoiceGen.Api

namespace InvoiceGen

/-- A create-attribute set with the items and tax rate of testable
property 5 of the spec (items = [{qty 2, unitPrice 10}], taxRate = 10),
used as the persisted starting point of the update scenarios. -/
def sampleCreateAttrs : Model.CreateAttrs :=
  { invoiceNumber := JsVal.jsStr "INV-001"
    invoiceDate := JsVal.jsStr "2024-01-01"
    dueDate := JsVal.undef
    logoUrl := JsVal.undef
    sender := JsVal.jsObj
    recipient := JsVal.jsObj
    items := [{ description := "Item", quantity := 2, unitPrice := 10 }]
    currency := JsVal.jsStr "USD"
    taxRate := 10
    subtotal := none
    total := none
    UserId := "user-1" }

/-- The persisted invoice those attributes create (the hooks have run):
items = [{qty 2, unitPrice 10}], taxRate = 10, subtotal = 20, total = 22. -/
def persistedInvoice : Model.Invoice :=
  Model.createInvoice "inv-1" sampleCreateAttrs

/-- The update payload of testable property 5: items changed to
[{qty 1, unitPrice 50}], taxRate untouched, and caller-supplied
`subtotal`/`total` values `s`/`t` smuggled into the change set. -/
def replaceItemsPayload (s t : Option ℚ) : Model.UpdateAttrs :=
  { invoiceNumber := none
    invoiceDate := none
    dueDate := none
    logoUrl := none
    sender := none
    recipient := none
    items := some [{ description := "Item", quantity := 1, unitPrice := 50 }]
    currency := none
    taxRate := none
    subtotal := s
    total := t }

/-- An update payload carrying neither `items` nor `taxRate`, only direct
caller-supplied `subtotal`/`total` values (as the Express controller
forwards from `req.body`). -/
def directTotalsPayload : Model.UpdateAttrs :=
  { invoiceNumber := none
    invoiceDate := none
    dueDate := none
    logoUrl := none
    sender := none
    recipient := none
    items := none
    currency := none
    taxRate := none
    subtotal := some 999
    total := some 777 }

/-- A request body with every field absent. -/
def emptyRequestBody : Api.RequestBody :=
  { invoiceNumber := JsVal.undef
    invoiceDate := JsVal.undef
    dueDate := JsVal.undef
    logoUrl := JsVal.undef
    sender := JsVal.undef
    recipient := JsVal.undef
    items := JsVal.undef
    currency := JsVal.undef
    taxRate := JsVal.undef }

end InvoiceGen

namespace InvoiceGen

/-- The source's left fold over items computes the spec's Σ of the mapped
products. -/
theorem subtotalOf_eq_sum (items : List LineItem) :
    subtotalOf items = (items.map (fun item => item.quantity * item.unitPrice)).sum := by
  suffices h : ∀ (l : List LineItem) (a : ℚ),
      l.foldl (fun sum item => sum + item.quantity * item.unitPrice) a =
        a + (l.map (fun item => item.quantity * item.unitPrice)).sum by
    simpa [subtotalOf] using h items 0
  intro l
  induction l with
  | nil => intro a; simp
  | cons x xs ih =>
      intro a
      simp [List.foldl_cons, ih, add_assoc]

/-- C4: For every taxRate value, computing totals over the empty items
sequence yields subtotal = 0 and total = 0. -/
theorem computeTotals_nil (r : ℚ) :
    (computeTotals [] r).subtotal = 0 ∧ (computeTotals [] r).total = 0 := by
  simp [computeTotals, subtotalOf]

/-- C7: Computing totals for items = [{description "A", quantity 3,
unitPrice 20}, {description "B", quantity 1, unitPrice 15}] with
taxRate = 8 yields exactly subtotal = 75 and total = 81. -/
theorem computeTotals_concrete :
    (computeTotals
        [{ description := "A", quantity := 3, unitPrice := 20 },
         { description := "B", quantity := 1, unitPrice := 15 }] 8).subtotal = 75 ∧
      (computeTotals
        [{ description := "A", quantity := 3, unitPrice := 20 },
         { description := "B", quantity := 1, unitPrice := 15 }] 8).total = 81 := by
  norm_num [computeTotals, subtotalOf]

/-- C8: For every item sequence, computing totals with taxRate = 0 yields a
total exactly equal to the computed subtotal of the same call. -/
theorem computeTotals_zero_tax (items : List LineItem) :
    (computeTotals items 0).total = (computeTotals items 0).subtotal := by
  simp [computeTotals]

/-- C6: For every item sequence and tax rate r ≥ 0, the computed total
equals subtotal * (1 + r/100), where subtotal is the computed subtotal of
the same call (exact arithmetic, no internal rounding). -/
theorem computeTotals_tax_scaling (items : List LineItem) (r : ℚ) (_h : 0 ≤ r) :
    (computeTotals items r).total = (computeTotals items r).subtotal * (1 + r / 100) := by
  simp [computeTotals]
  ring

/-- Witness for C6 at items = [{"A", 3, 20}], r = 8. -/
theorem computeTotals_tax_scaling_witness :
    (computeTotals [{ description := "A", quantity := 3, unitPrice := 20 }] 8).total =
      (computeTotals [{ description := "A", quantity := 3, unitPrice := 20 }] 8).subtotal *
        (1 + (8 : ℚ) / 100) :=
  computeTotals_tax_scaling [{ description := "A", quantity := 3, unitPrice := 20 }] 8
    (by norm_num)

/-- C5: For every item sequence and tax rate, the computed subtotal equals
the sum over the items of quantity * unitPrice, and reordering the items
never changes the computed subtotal. -/
theorem computeTotals_subtotal_perm (items items' : List LineItem) (r r' : ℚ)
    (h : items.Perm items') :
    (computeTotals items r).subtotal =
        (items.map (fun item => item.quantity * item.unitPrice)).sum ∧
      (computeTotals items r).subtotal = (computeTotals items' r').subtotal := by
  constructor
  · simpa [computeTotals] using subtotalOf_eq_sum items
  · have hsum :
        (items.map (fun item => item.quantity * item.unitPrice)).sum =
          (items'.map (fun item => item.quantity * item.unitPrice)).sum :=
      (h.map (fun item => item.quantity * item.unitPrice)).sum_eq
    simp [computeTotals, subtotalOf_eq_sum, hsum]

/-- Witness for C5: the two-item list of the concrete scenario,
reversed. -/
theorem computeTotals_subtotal_perm_witness :
    (computeTotals
        [{ description := "A", quantity := 3, unitPrice := 20 },
         { description := "B", quantity := 1, unitPrice := 15 }] 8).subtotal =
        (([{ description := "A", quantity := 3, unitPrice := 20 },
            { description := "B", quantity := 1, unitPrice := 15 }] : List LineItem).map
            (fun item => item.quantity * item.unitPrice)).sum ∧
      (computeTotals
        [{ description := "A", quantity := 3, unitPrice := 20 },
         { description := "B", quantity := 1, unitPrice := 15 }] 8).subtotal =
        (computeTotals
          [{ description := "B", quantity := 1, unitPrice := 15 },
           { description := "A", quantity := 3, unitPrice := 20 }] 0).subtotal :=
  computeTotals_subtotal_perm
    [{ description := "A", quantity := 3, unitPrice := 20 },
     { description := "B", quantity := 1, unitPrice := 15 }]
    [{ description := "B", quantity := 1, unitPrice := 15 },
     { description := "A", quantity := 3, unitPrice := 20 }] 8 0
    (by decide)

/-- C1: Every create, and every update whose change set includes `items`
or `taxRate`, leaves the stored invoice satisfying
subtotal = Σ quantity·unitPrice and total = subtotal + subtotal·(taxRate/100),
whatever `subtotal`/`total` the caller supplied (the hooks overwrite
them). -/
theorem create_update_recomputes_totals (newId : String) (a : Model.CreateAttrs)
    (inv : Model.Invoice) (u : Model.UpdateAttrs)
    (h : Model.itemsChanged u = true ∨ Model.taxRateChanged inv u = true) :
    Model.totalsInvariant (Model.createInvoice newId a) ∧
      Model.totalsInvariant (Model.updateInvoice inv u) := by
  constructor
  · constructor <;>
      simp [Model.createInvoice, Model.beforeCreate, Model.buildInvoice,
        Model.totalsInvariant, subtotalOf_eq_sum]
  · have hb : (Model.itemsChanged u || Model.taxRateChanged inv u) = true := by
      rcases h with h | h <;> simp [h]
    constructor <;>
      simp [Model.updateInvoice, Model.beforeUpdate, hb,
        Model.totalsInvariant, subtotalOf_eq_sum]

/-- Witness for C1: the sample create, and the sample update whose change
set includes `items` (with bogus caller-supplied totals 999/777). -/
theorem create_update_recomputes_totals_witness :
    Model.totalsInvariant (Model.createInvoice "inv-1" sampleCreateAttrs) ∧
      Model.totalsInvariant
        (Model.updateInvoice persistedInvoice (replaceItemsPayload (some 999) (some 777))) :=
  create_update_recomputes_totals "inv-1" sampleCreateAttrs persistedInvoice
    (replaceItemsPayload (some 999) (some 777)) (Or.inl rfl)

/-- C2: Updating the persisted invoice (items [{2, 10}], taxRate 10,
subtotal 20, total 22) with items = [{1, 50}] and taxRate unchanged stores
subtotal = 50 and total = 55, for every caller-supplied subtotal `s` and
total `t` in the payload. -/
theorem update_consistency_concrete (s t : Option ℚ) :
    persistedInvoice.subtotal = 20 ∧ persistedInvoice.total = 22 ∧
      persistedInvoice.taxRate = 10 ∧
      (Model.updateInvoice persistedInvoice (replaceItemsPayload s t)).subtotal = 50 ∧
      (Model.updateInvoice persistedInvoice (replaceItemsPayload s t)).total = 55 := by
  refine ⟨?_, ?_, rfl, ?_, ?_⟩ <;>
    norm_num [persistedInvoice, sampleCreateAttrs, replaceItemsPayload,
      Model.createInvoice, Model.beforeCreate, Model.buildInvoice,
      Model.updateInvoice, Model.beforeUpdate, Model.setAttrs,
      Model.itemsChanged, subtotalOf]

/-- C3 counterexample: an update whose payload contains neither `items`
nor `taxRate` but carries a direct `subtotal := 999` does change the
stored subtotal (20 ↦ 999): the hook only recomputes when `items` or
`taxRate` changed, and the assigned value is persisted. -/
theorem update_frame_counterexample :
    directTotalsPayload.items = none ∧ directTotalsPayload.taxRate = none ∧
      persistedInvoice.subtotal = 20 ∧
      (Model.updateInvoice persistedInvoice directTotalsPayload).subtotal = 999 ∧
      (999 : ℚ) ≠ 20 := by
  refine ⟨rfl, rfl, ?_, ?_, by norm_num⟩ <;>
    norm_num [persistedInvoice, sampleCreateAttrs, directTotalsPayload,
      Model.createInvoice, Model.beforeCreate, Model.buildInvoice,
      Model.updateInvoice, Model.beforeUpdate, Model.setAttrs,
      Model.itemsChanged, Model.taxRateChanged, subtotalOf]

/-- C3 amended: when the payload contains neither `items` nor `taxRate`,
the stored subtotal and total after the update are the payload's
`subtotal`/`total` values when present and the previous stored values
otherwise — i.e. they are untouched exactly when the payload does not
carry them directly. -/
theorem update_frame_without_items_tax (inv : Model.Invoice) (u : Model.UpdateAttrs)
    (hi : u.items = none) (ht : u.taxRate = none) :
    (Model.updateInvoice inv u).subtotal = (u.subtotal).getD inv.subtotal ∧
      (Model.updateInvoice inv u).total = (u.total).getD inv.total := by
  constructor <;>
    simp [Model.updateInvoice, Model.beforeUpdate, Model.setAttrs,
      Model.itemsChanged, Model.taxRateChanged, hi, ht]

/-- `invoice.update` never changes the primary key. -/
theorem updateInvoice_id_eq (inv : Model.Invoice) (u : Model.UpdateAttrs) :
    (Model.updateInvoice inv u).id = inv.id := by
  unfold Model.updateInvoice Model.beforeUpdate
  split <;> rfl

/-- After `invoice.update`, the stored items are the supplied ones when
present and the previous ones otherwise. -/
theorem updateInvoice_items_eq (inv : Model.Invoice) (u : Model.UpdateAttrs) :
    (Model.updateInvoice inv u).items = (u.items).getD inv.items := by
  unfold Model.updateInvoice Model.beforeUpdate
  split <;> rfl

/-- A body of the kind claim C9 describes fails the handlers' validation
test. -/
theorem claimInvalidBody_missing (b : Api.RequestBody) (h : Api.claimInvalidBody b) :
    Api.missingRequiredFields b = true := by
  unfold Api.missingRequiredFields
  rcases h with h | h | h | h | h | h <;>
    simp [h, truthy, arrayLength]

/-- A body passing the handlers' validation has a non-empty item array in
its `items` field. -/
theorem validBody_items (b : Api.RequestBody)
    (h : Api.missingRequiredFields b = false) :
    ∃ xs, b.items = JsVal.itemArray xs ∧ xs ≠ [] := by
  unfold Api.missingRequiredFields at h
  simp only [Bool.or_eq_false_iff, Bool.not_eq_false', beq_eq_false_iff_ne,
    Bool.not_eq_true'] at h
  obtain ⟨⟨⟨⟨⟨-, -⟩, -⟩, -⟩, harr⟩, hlen⟩ := h
  cases hb : b.items with
  | itemArray xs =>
      refine ⟨xs, rfl, ?_⟩
      intro hnil
      apply hlen
      simp [hb, hnil, arrayLength]
  | undef => rw [hb] at harr; simp [isArray] at harr
  | null => rw [hb] at harr; simp [isArray] at harr
  | jsBool b' => rw [hb] at harr; simp [isArray] at harr
  | jsNum q => rw [hb] at harr; simp [isArray] at harr
  | jsStr s => rw [hb] at harr; simp [isArray] at harr
  | jsObj => rw [hb] at harr; simp [isArray] at harr

/-- A successful `findOne` returns a row of the table whose id and owner
match the query. -/
theorem findOne_some_spec (db : List Model.Invoice) (invoiceId userId : String)
    (inv : Model.Invoice) (h : Api.findOne db invoiceId userId = some inv) :
    inv ∈ db ∧ inv.id = invoiceId ∧ inv.UserId = userId := by
  unfold Api.findOne at h
  have hmem := List.mem_of_find?_eq_some h
  have hp := List.find?_some h
  simp only [Bool.and_eq_true, beq_iff_eq] at hp
  exact ⟨hmem, hp.1, hp.2⟩

/-- When no row matches both the id and the owner, `findOne` returns
nothing. -/
theorem findOne_none_of_no_match (db : List Model.Invoice) (invoiceId userId : String)
    (h : ∀ inv ∈ db, ¬(inv.id = invoiceId ∧ inv.UserId = userId)) :
    Api.findOne db invoiceId userId = none := by
  unfold Api.findOne
  rw [List.find?_eq_none]
  intro x hx
  have hh := h x hx
  simp only [Bool.and_eq_true, beq_iff_eq]
  tauto

/-- C9 counterexample: a PUT request whose body is missing every required
field, made for an id with no matching invoice, is answered 404 "Invoice
not found" — not 400 "Missing required fields" — because the handler
resolves the invoice before validating the body. -/
theorem missing_fields_counterexample :
    Api.claimInvalidBody emptyRequestBody ∧
      Api.updateInvoice [] "inv-404" "user-1" emptyRequestBody =
        (Api.notFoundResponse, []) ∧
      Api.notFoundResponse.status = 404 ∧ Api.notFoundResponse.status ≠ 400 := by
  exact ⟨Or.inl rfl, rfl, rfl, by decide⟩

/-- C9 amended: a POST with a body of the described kind is answered 400
"Missing required fields" with nothing created; a PUT with such a body is
answered 400 with nothing modified provided the invoice lookup succeeded
(when it fails, the handler answers 404 before validating, leaving the
table unchanged); and consequently every invoice these endpoints create or
store has a non-empty items list. -/
theorem api_missing_fields (db : List Model.Invoice)
    (invoiceId userId newId : String) (body : Api.RequestBody) :
    (Api.claimInvalidBody body →
        Api.createInvoice body userId newId = (Api.badRequestResponse, none)) ∧
      (Api.claimInvalidBody body → (Api.findOne db invoiceId userId).isSome →
        Api.updateInvoice db invoiceId userId body = (Api.badRequestResponse, db)) ∧
      (Api.findOne db invoiceId userId = none →
        Api.updateInvoice db invoiceId userId body = (Api.notFoundResponse, db)) ∧
      (∀ inv, (Api.createInvoice body userId newId).2 = some inv →
        inv.items ≠ []) ∧
      (∀ row ∈ (Api.updateInvoice db invoiceId userId body).2,
        row ∈ db ∨ row.items ≠ []) := by
  refine ⟨?_, ?_, ?_, ?_, ?_⟩
  · intro h
    simp [Api.createInvoice, claimInvalidBody_missing body h]
  · intro h hfound
    obtain ⟨inv, hinv⟩ := Option.isSome_iff_exists.mp hfound
    simp [Api.updateInvoice, hinv, claimInvalidBody_missing body h]
  · intro hnone
    simp [Api.updateInvoice, hnone]
  · intro inv hinv
    by_cases hm : Api.missingRequiredFields body = true
    · simp [Api.createInvoice, hm] at hinv
    · have hm' : Api.missingRequiredFields body = false := by
        simpa using hm
      obtain ⟨xs, hxs, hne⟩ := validBody_items body hm'
      simp only [Api.createInvoice, hm', Bool.false_eq_true, if_false,
        Option.some.injEq] at hinv
      subst hinv
      simp [Model.createInvoice, Model.beforeCreate, Model.buildInvoice,
        hxs, asItems, hne]
  · intro row hrow
    cases hfind : Api.findOne db invoiceId userId with
    | none =>
        left
        simpa [Api.updateInvoice, hfind] using hrow
    | some invoice =>
        by_cases hm : Api.missingRequiredFields body = true
        · left
          simpa [Api.updateInvoice, hfind, hm] using hrow
        · have hm' : Api.missingRequiredFields body = false := by
            simpa using hm
          obtain ⟨xs, hxs, hne⟩ := validBody_items body hm'
          simp only [Api.updateInvoice, hfind, hm', Bool.false_eq_true, if_false,
            Api.persist] at hrow
          rw [List.mem_map] at hrow
          obtain ⟨r, hr, hfr⟩ := hrow
          by_cases hid :
              (r.id == (Model.updateInvoice invoice (Api.updateAttrsOfBody body)).id) = true
          · right
            rw [if_pos hid] at hfr
            rw [← hfr, updateInvoice_items_eq]
            have : (Api.updateAttrsOfBody body).items = some xs := by
              simp [Api.updateAttrsOfBody, hxs, Api.optItems]
            rw [this]
            simpa using hne
          · left
            rw [if_neg hid] at hfr
            rw [← hfr]
            exact hr

/-- Witness for C9 amended: the all-absent body is rejected by POST with
400 and nothing created, and a PUT for an id with no invoice is answered
404 with the (empty) table unchanged. -/
theorem api_missing_fields_witness :
    Api.createInvoice emptyRequestBody "user-1" "inv-9" = (Api.badRequestResponse, none) ∧
      Api.updateInvoice [] "inv-404" "user-1" emptyRequestBody =
        (Api.notFoundResponse, []) :=
  ⟨(api_missing_fields [] "inv-404" "user-1" "inv-9" emptyRequestBody).1 (Or.inl rfl),
    (api_missing_fields [] "inv-404" "user-1" "inv-9" emptyRequestBody).2.2.1 rfl⟩

/-- C10: When no invoice matches both the requested id and the
authenticated user's id, GET, PUT and DELETE answer 404 "Invoice not
found" and leave the table unchanged with nothing returned; moreover any
invoice GET returns belongs to the requesting user, and rows owned by
other users survive PUT and DELETE untouched. -/
theorem not_found_isolation (db : List Model.Invoice) (invoiceId userId : String)
    (body : Api.RequestBody) (hnodup : (db.map Model.Invoice.id).Nodup) :
    ((∀ inv ∈ db, ¬(inv.id = invoiceId ∧ inv.UserId = userId)) →
        Api.getInvoice db invoiceId userId = (Api.notFoundResponse, none) ∧
          Api.updateInvoice db invoiceId userId body = (Api.notFoundResponse, db) ∧
          Api.deleteInvoice db invoiceId userId = (Api.notFoundResponse, db)) ∧
      (∀ inv, (Api.getInvoice db invoiceId userId).2 = some inv →
        inv ∈ db ∧ inv.UserId = userId) ∧
      (∀ row ∈ db, row.UserId ≠ userId →
        row ∈ (Api.updateInvoice db invoiceId userId body).2 ∧
          row ∈ (Api.deleteInvoice db invoiceId userId).2) := by
  refine ⟨?_, ?_, ?_⟩
  · intro h
    have hn := findOne_none_of_no_match db invoiceId userId h
    exact ⟨by simp [Api.getInvoice, hn], by simp [Api.updateInvoice, hn],
      by simp [Api.deleteInvoice, hn]⟩
  · intro inv hinv
    cases hfind : Api.findOne db invoiceId userId with
    | none => simp [Api.getInvoice, hfind] at hinv
    | some j =>
        have hj := findOne_some_spec db invoiceId userId j hfind
        simp only [Api.getInvoice, hfind, Option.some.injEq] at hinv
        exact ⟨hinv ▸ hj.1, hinv ▸ hj.2.2⟩
  · intro row hrow hneq
    cases hfind : Api.findOne db invoiceId userId with
    | none =>
        exact ⟨by simpa [Api.updateInvoice, hfind] using hrow,
          by simpa [Api.deleteInvoice, hfind] using hrow⟩
    | some invoice =>
        obtain ⟨hmem, hid, huser⟩ := findOne_some_spec db invoiceId userId invoice hfind
        have hrid : row.id ≠ invoice.id := by
          intro he
          have heq : row = invoice :=
            List.inj_on_of_nodup_map hnodup hrow hmem he
          exact hneq (heq ▸ huser)
        constructor
        · by_cases hm : Api.missingRequiredFields body = true
          · simpa [Api.updateInvoice, hfind, hm] using hrow
          · have hm' : Api.missingRequiredFields body = false := by
              simpa using hm
            simp only [Api.updateInvoice, hfind, hm', Bool.false_eq_true, if_false,
              Api.persist]
            refine List.mem_map.mpr ⟨row, hrow, ?_⟩
            have hne :
                (row.id == (Model.updateInvoice invoice (Api.updateAttrsOfBody body)).id) =
                  false := by
              rw [updateInvoice_id_eq]
              simpa using hrid
            simp [hne]
        · simp only [Api.deleteInvoice, hfind]
          rw [List.mem_filter]
          exact ⟨hrow, by simpa using hrid⟩

/-- Witness for C10: a table holding only user-1's invoice "inv-1",
queried for "inv-1" by user-2. -/
theorem not_found_isolation_witness :
    Api.getInvoice [persistedInvoice] "inv-1" "user-2" = (Api.notFoundResponse, none) ∧
      Api.updateInvoice [persistedInvoice] "inv-1" "user-2" emptyRequestBody =
        (Api.notFoundResponse, [persistedInvoice]) ∧
      Api.deleteInvoice [persistedInvoice] "inv-1" "user-2" =
        (Api.notFoundResponse, [persistedInvoice]) :=
  (not_found_isolation [persistedInvoice] "inv-1" "user-2" emptyRequestBody
      (by simp)).1
    (by
      intro inv hinv
      rw [List.mem_singleton] at hinv
      subst hinv
      intro hc
      exact absurd hc.2 (by decide))

/-- Witness for C3 amended: the direct-totals payload against the
persisted invoice. -/
theorem update_frame_without_items_tax_witness :
    (Model.updateInvoice persistedInvoice directTotalsPayload).subtotal =
        (directTotalsPayload.subtotal).getD persistedInvoice.subtotal ∧
      (Model.updateInvoice persistedInvoice directTotalsPayload).total =
        (directTotalsPayload.total).getD persistedInvoice.total :=
  update_frame_without_items_tax persistedInvoice directTotalsPayload rfl rfl

end InvoiceGen
